import Mathlib

/-
Verification of the physics core of the billiard simulation
(src/billiard_r.py) against its natural-language specification.

The physics-relevant state of a ball (position, velocity, angular
velocity, rotation, mass, pocket flag) is embedded as a Lean structure
over the real numbers; presentation-only fields (trail, highlight,
timestamps) are omitted, as the spec places them out of scope.  Each
operation of the physics core is translated line by line from the
Python source.
-/

namespace Billiard

noncomputable section

open Real

/-! ## Constants from the source header -/

def SCREEN_WIDTH : ℝ := 1200
def SCREEN_HEIGHT : ℝ := 700
def FRICTION : ℝ := 0.985
def ROTATIONAL_FRICTION : ℝ := 0.96
def WALL_BOUNCE : ℝ := 0.78
def BALL_RADIUS : ℝ := 14
def POCKET_RADIUS : ℝ := 32
def SPIN_EFFECT : ℝ := 0.15

/-! ## Ball state -/

structure Ball where
  center_x : ℝ
  center_y : ℝ
  change_x : ℝ
  change_y : ℝ
  angular_velocity : ℝ
  rotation : ℝ
  mass : ℝ
  in_pocket : Bool

/-- Convenience constructor: the physics state of a freshly made ball
(`Ball.__init__` sets `angular_velocity = 0`, `rotation = 0`,
`mass = 1.0`, `in_pocket = False`), with a velocity and spin supplied. -/
def mkBall (x y vx vy av : ℝ) : Ball :=
  { center_x := x, center_y := y, change_x := vx, change_y := vy,
    angular_velocity := av, rotation := 0, mass := 1, in_pocket := false }

/-! ## Ball.update : per-tick integration (source lines 112-151) -/

/-- The friction stage of `Ball.update`:
`friction = FRICTION - (speed * 0.0005); change_x *= friction;
change_y *= friction`. -/
def apply_friction (vx vy : ℝ) : ℝ × ℝ :=
  let speed := Real.sqrt (vx ^ 2 + vy ^ 2)
  let friction := FRICTION - speed * 0.0005
  (vx * friction, vy * friction)

/-- The zero-snap stage of `Ball.update`:
`if abs(self.change_x) < 0.08: self.change_x = 0` (per component). -/
def snap (v : ℝ) : ℝ := if |v| < 0.08 then 0 else v

/-- `Ball.update(delta_time)`: advance position by one tick of velocity,
apply speed-dependent friction, integrate rotation, damp angular
velocity, add spin drift when the damped angular velocity exceeds 0.1,
then snap each velocity component below 0.08 to zero.  The friction,
rotation and spin-drift block runs only when the pre-step speed is
positive, exactly as in the source. -/
def Ball.update (b : Ball) (delta_time : ℝ) : Ball :=
  if 0 < Real.sqrt (b.change_x ^ 2 + b.change_y ^ 2) then
    if 0.1 < |b.angular_velocity * ROTATIONAL_FRICTION| then
      { b with
        center_x := b.center_x + b.change_x,
        center_y := b.center_y + b.change_y,
        change_x := snap ((apply_friction b.change_x b.change_y).1 +
          b.angular_velocity * ROTATIONAL_FRICTION * SPIN_EFFECT * delta_time),
        change_y := snap ((apply_friction b.change_x b.change_y).2 -
          b.angular_velocity * ROTATIONAL_FRICTION * SPIN_EFFECT * delta_time),
        rotation := b.rotation + b.angular_velocity * delta_time * 30,
        angular_velocity := b.angular_velocity * ROTATIONAL_FRICTION }
    else
      { b with
        center_x := b.center_x + b.change_x,
        center_y := b.center_y + b.change_y,
        change_x := snap (apply_friction b.change_x b.change_y).1,
        change_y := snap (apply_friction b.change_x b.change_y).2,
        rotation := b.rotation + b.angular_velocity * delta_time * 30,
        angular_velocity := b.angular_velocity * ROTATIONAL_FRICTION }
  else
    { b with
      center_x := b.center_x + b.change_x,
      center_y := b.center_y + b.change_y,
      change_x := snap b.change_x,
      change_y := snap b.change_y }

/-! ## GamePhysics.resolve_ball_collision (source lines 339-376) -/

/-- Euclidean distance between two ball centers, written exactly as the
source computes it (`math.sqrt(dx * dx + dy * dy)`). -/
def ball_distance (b1 b2 : Ball) : ℝ :=
  Real.sqrt ((b2.center_x - b1.center_x) * (b2.center_x - b1.center_x) +
             (b2.center_y - b1.center_y) * (b2.center_y - b1.center_y))

/-- Component `nx` of the collision normal, `dx / distance`. -/
def coll_nx (b1 b2 : Ball) : ℝ :=
  (b2.center_x - b1.center_x) / ball_distance b1 b2

/-- Component `ny` of the collision normal, `dy / distance`. -/
def coll_ny (b1 b2 : Ball) : ℝ :=
  (b2.center_y - b1.center_y) / ball_distance b1 b2

/-- The positional correction applied to each ball,
`separation = overlap * 0.5` with `overlap = BALL_RADIUS * 2 - distance`. -/
def coll_separation (b1 b2 : Ball) : ℝ :=
  (BALL_RADIUS * 2 - ball_distance b1 b2) * 0.5

/-- Relative velocity of the pair projected on the collision normal,
`speed_along_normal = dvx * nx + dvy * ny`.  The positional correction
does not touch the velocities, so this is computed from the incoming
balls. -/
def coll_normal_speed (b1 b2 : Ball) : ℝ :=
  (b2.change_x - b1.change_x) * coll_nx b1 b2 +
    (b2.change_y - b1.change_y) * coll_ny b1 b2

/-- The scalar impulse with restitution 0.9,
`impulse = 2 * speed_along_normal / (m1 + m2) * restitution`. -/
def coll_impulse (b1 b2 : Ball) : ℝ :=
  2 * coll_normal_speed b1 b2 / (b1.mass + b2.mass) * 0.9

/-- Ball 1 after the positional correction
(`ball1.center -= n * separation`). -/
def separated1 (b1 b2 : Ball) : Ball :=
  { b1 with
    center_x := b1.center_x - coll_nx b1 b2 * coll_separation b1 b2,
    center_y := b1.center_y - coll_ny b1 b2 * coll_separation b1 b2 }

/-- Ball 2 after the positional correction
(`ball2.center += n * separation`). -/
def separated2 (b1 b2 : Ball) : Ball :=
  { b2 with
    center_x := b2.center_x + coll_nx b1 b2 * coll_separation b1 b2,
    center_y := b2.center_y + coll_ny b1 b2 * coll_separation b1 b2 }

/-- Ball 1 after the normal impulse
(`ball1.change += impulse * ball2.mass * n`). -/
def impulsed1 (b1 b2 : Ball) : Ball :=
  { separated1 b1 b2 with
    change_x := b1.change_x + coll_impulse b1 b2 * b2.mass * coll_nx b1 b2,
    change_y := b1.change_y + coll_impulse b1 b2 * b2.mass * coll_ny b1 b2 }

/-- Ball 2 after the normal impulse
(`ball2.change -= impulse * ball1.mass * n`). -/
def impulsed2 (b1 b2 : Ball) : Ball :=
  { separated2 b1 b2 with
    change_x := b2.change_x - coll_impulse b1 b2 * b1.mass * coll_nx b1 b2,
    change_y := b2.change_y - coll_impulse b1 b2 * b1.mass * coll_ny b1 b2 }

/-- Ball 1 after the 30 percent angular-velocity transfer
(`transfer = ball1.angular_velocity * 0.3; ball1.angular_velocity -= transfer`). -/
def spun1 (b1 b2 : Ball) : Ball :=
  { impulsed1 b1 b2 with
    angular_velocity :=
      (impulsed1 b1 b2).angular_velocity - (impulsed1 b1 b2).angular_velocity * 0.3 }

/-- Ball 2 after the 30 percent angular-velocity transfer
(`ball2.angular_velocity += transfer`). -/
def spun2 (b1 b2 : Ball) : Ball :=
  { impulsed2 b1 b2 with
    angular_velocity :=
      (impulsed2 b1 b2).angular_velocity + (impulsed1 b1 b2).angular_velocity * 0.3 }

/-- `GamePhysics.resolve_ball_collision(ball1, ball2)`: early return when
the centers coincide or are farther apart than two radii; otherwise push
the balls apart along the unit normal by half the overlap each, then, if
the balls are separating, stop there; otherwise apply the
restitution-0.9 normal impulse weighted by the masses, and finally
transfer 30 percent of the first ball's angular velocity when its
magnitude exceeds 0.1. -/
def resolve_ball_collision (ball1 ball2 : Ball) : Ball × Ball :=
  if ball_distance ball1 ball2 = 0 ∨ BALL_RADIUS * 2 < ball_distance ball1 ball2 then
    (ball1, ball2)
  else if 0 < coll_normal_speed ball1 ball2 then
    (separated1 ball1 ball2, separated2 ball1 ball2)
  else if 0.1 < |(impulsed1 ball1 ball2).angular_velocity| then
    (spun1 ball1 ball2, spun2 ball1 ball2)
  else
    (impulsed1 ball1 ball2, impulsed2 ball1 ball2)

/-! ## GamePhysics.check_wall_collision (source lines 377-405)

The arcade sprite fields `left`, `right`, `bottom`, `top` are the
center coordinate offset by the sprite radius `BALL_RADIUS`. -/

/-- `GamePhysics.check_wall_collision(ball)`: test the four walls in
source order (left, elif right, then bottom, elif top); on the first
wall whose bound the ball extent crosses, clamp that coordinate back to
the bound, set the normal velocity component to point away from the
wall scaled by `WALL_BOUNCE`, multiply angular velocity by -0.8 and
report `true`; report `false` with the ball untouched otherwise. -/
def check_wall_collision (ball : Ball) : Ball × Bool :=
  if ball.center_x - BALL_RADIUS < 65 then
    ({ ball with center_x := 65 + BALL_RADIUS,
                 change_x := |ball.change_x| * WALL_BOUNCE,
                 angular_velocity := ball.angular_velocity * (-0.8) }, true)
  else if SCREEN_WIDTH - 65 < ball.center_x + BALL_RADIUS then
    ({ ball with center_x := SCREEN_WIDTH - 65 - BALL_RADIUS,
                 change_x := -|ball.change_x| * WALL_BOUNCE,
                 angular_velocity := ball.angular_velocity * (-0.8) }, true)
  else if ball.center_y - BALL_RADIUS < 65 then
    ({ ball with center_y := 65 + BALL_RADIUS,
                 change_y := |ball.change_y| * WALL_BOUNCE,
                 angular_velocity := ball.angular_velocity * (-0.8) }, true)
  else if SCREEN_HEIGHT - 65 < ball.center_y + BALL_RADIUS then
    ({ ball with center_y := SCREEN_HEIGHT - 65 - BALL_RADIUS,
                 change_y := -|ball.change_y| * WALL_BOUNCE,
                 angular_velocity := ball.angular_velocity * (-0.8) }, true)
  else (ball, false)

/-! ## Pocket capture (BilliardTable.pocket_locations, source line 184,
and GameView.check_pocket_collisions, source lines 1278-1288) -/

/-- The six pocket centers of `BilliardTable.__init__`, for the fixed
1200 by 700 screen (`width // 2 = 600`). -/
def pocket_locations : List (ℝ × ℝ) :=
  [(60, 60), (600, 50), (1140, 60),
   (60, 640), (600, 650), (1140, 640)]

/-- The inner loop of `GameView.check_pocket_collisions` for one ball:
scan the pockets in list order and capture into the first whose center
is strictly within `POCKET_RADIUS` of the ball center (the source
`break`s after the first hit). -/
def find_pocket (x y : ℝ) : List (ℝ × ℝ) → Option (ℝ × ℝ)
  | [] => none
  | p :: ps =>
    if Real.sqrt ((x - p.1) ^ 2 + (y - p.2) ^ 2) < POCKET_RADIUS then some p
    else find_pocket x y ps

/-- Pocket check for one ball: balls already in a pocket are skipped
(`if ball.in_pocket: continue`), otherwise the pockets are scanned in
iteration order. -/
def check_pocket (ball : Ball) : Option (ℝ × ℝ) :=
  if ball.in_pocket then none
  else find_pocket ball.center_x ball.center_y pocket_locations

/-! ## Derived physical quantities used by the spec claims -/

/-- Kinetic energy of one ball, `0.5 * m * |v|^2`. -/
def kinetic_energy (b : Ball) : ℝ :=
  0.5 * b.mass * (b.change_x ^ 2 + b.change_y ^ 2)

/-- Linear momentum vector of one ball, `m * v`. -/
def momentum (b : Ball) : ℝ × ℝ :=
  (b.mass * b.change_x, b.mass * b.change_y)

/-! ## Generic helper lemmas -/

/-- Evaluate a concrete square root of the form used by the collision code. -/
lemma sqrt_eval_mul (a b c : ℝ) (hc : 0 ≤ c) (h : a * a + b * b = c ^ 2) :
    Real.sqrt (a * a + b * b) = c := by
  rw [h, Real.sqrt_sq hc]

/-- Evaluate a concrete square root of the form used by the integration code. -/
lemma sqrt_eval_pow (a b c : ℝ) (hc : 0 ≤ c) (h : a ^ 2 + b ^ 2 = c ^ 2) :
    Real.sqrt (a ^ 2 + b ^ 2) = c := by
  rw [h, Real.sqrt_sq hc]

end

/-! ## C9 : degenerate and non-overlapping pairs are left untouched -/

/-- C9: when the two centers are at distance exactly 0 (coincident) or
strictly beyond `2 * BALL_RADIUS`, `resolve_ball_collision` is a no-op:
it returns both balls with position, velocity and angular velocity
unchanged, and no division by the distance is ever performed. -/
theorem C9_degenerate_pair_noop (b1 b2 : Ball)
    (h : ball_distance b1 b2 = 0 ∨ BALL_RADIUS * 2 < ball_distance b1 b2) :
    resolve_ball_collision b1 b2 = (b1, b2) := by
  rw [resolve_ball_collision, if_pos h]

/-- Witness for C9 at a concrete input: two balls 100 units apart are
returned unchanged. -/
theorem C9_degenerate_pair_noop_witness :
    resolve_ball_collision (mkBall 0 0 1 2 3) (mkBall 100 0 4 5 6) =
      (mkBall 0 0 1 2 3, mkBall 100 0 4 5 6) := by
  apply C9_degenerate_pair_noop
  right
  have : ball_distance (mkBall 0 0 1 2 3) (mkBall 100 0 4 5 6) = 100 := by
    unfold ball_distance mkBall
    norm_num
    rw [show (10000 : ℝ) = 100 ^ 2 by norm_num, Real.sqrt_sq (by norm_num)]
  rw [this, BALL_RADIUS]
  norm_num

/-! ## C5 : conservation of linear momentum in pair resolution -/

/-- C5: `resolve_ball_collision` conserves the total linear momentum of
the pair: the vector `m1 * v1 + m2 * v2` is identical before and after
the call (componentwise, hence in particular along the collision
normal); the two velocity updates are opposite impulses weighted by the
other ball's mass, so this holds in every branch and for every
restitution factor. -/
theorem C5_momentum_conserved (b1 b2 : Ball) :
    (momentum (resolve_ball_collision b1 b2).1).1 +
      (momentum (resolve_ball_collision b1 b2).2).1 =
      (momentum b1).1 + (momentum b2).1 ∧
    (momentum (resolve_ball_collision b1 b2).1).2 +
      (momentum (resolve_ball_collision b1 b2).2).2 =
      (momentum b1).2 + (momentum b2).2 := by
  rw [resolve_ball_collision]
  split_ifs <;>
    constructor <;>
      simp [momentum, separated1, separated2, impulsed1, impulsed2,
        spun1, spun2] <;>
    ring

/-! ## C4 : the positional correction restores the contact distance -/

/-- After the positional correction the two centers are exactly
`2 * BALL_RADIUS` apart: the correction moves each ball half the
overlap along the unit normal. -/
lemma separated_distance (b1 b2 : Ball) (h0 : ball_distance b1 b2 ≠ 0) :
    ball_distance (separated1 b1 b2) (separated2 b1 b2) = BALL_RADIUS * 2 := by
  have hd0 : 0 < ball_distance b1 b2 :=
    lt_of_le_of_ne (Real.sqrt_nonneg _) (Ne.symm h0)
  have hsq : (b2.center_x - b1.center_x) * (b2.center_x - b1.center_x) +
      (b2.center_y - b1.center_y) * (b2.center_y - b1.center_y) =
      ball_distance b1 b2 * ball_distance b1 b2 :=
    (Real.mul_self_sqrt (add_nonneg (mul_self_nonneg _) (mul_self_nonneg _))).symm
  have hx : (separated2 b1 b2).center_x - (separated1 b1 b2).center_x =
      (b2.center_x - b1.center_x) * (BALL_RADIUS * 2) / ball_distance b1 b2 := by
    simp only [separated1, separated2, coll_nx, coll_separation]
    field_simp
    ring
  have hy : (separated2 b1 b2).center_y - (separated1 b1 b2).center_y =
      (b2.center_y - b1.center_y) * (BALL_RADIUS * 2) / ball_distance b1 b2 := by
    simp only [separated1, separated2, coll_ny, coll_separation]
    field_simp
    ring
  rw [ball_distance, hx, hy]
  have harg : (b2.center_x - b1.center_x) * (BALL_RADIUS * 2) / ball_distance b1 b2 *
        ((b2.center_x - b1.center_x) * (BALL_RADIUS * 2) / ball_distance b1 b2) +
      (b2.center_y - b1.center_y) * (BALL_RADIUS * 2) / ball_distance b1 b2 *
        ((b2.center_y - b1.center_y) * (BALL_RADIUS * 2) / ball_distance b1 b2) =
      (BALL_RADIUS * 2) ^ 2 := by
    field_simp
    linear_combination (BALL_RADIUS * 2) ^ 2 * hsq
  rw [harg, Real.sqrt_sq (by norm_num [BALL_RADIUS])]

/-- C4: for any pair whose center distance `d` satisfies
`0 < d ≤ 2 * BALL_RADIUS` before the call, after
`resolve_ball_collision` the two centers are at distance at least
`2 * BALL_RADIUS - ε` for every nonnegative `ε` (in fact exactly
`2 * BALL_RADIUS`): each ball is pushed apart along the normal by half
the overlap, and the later impulse and spin stages do not move the
centers. -/
theorem C4_posteriori_separation (b1 b2 : Ball) (ε : ℝ) (hε : 0 ≤ ε)
    (h0 : 0 < ball_distance b1 b2) (h2 : ball_distance b1 b2 ≤ BALL_RADIUS * 2) :
    BALL_RADIUS * 2 - ε ≤
      ball_distance (resolve_ball_collision b1 b2).1 (resolve_ball_collision b1 b2).2 := by
  have hguard : ¬(ball_distance b1 b2 = 0 ∨ BALL_RADIUS * 2 < ball_distance b1 b2) := by
    push_neg
    exact ⟨ne_of_gt h0, not_lt.mp (by linarith)⟩
  have hsep := separated_distance b1 b2 (ne_of_gt h0)
  rw [resolve_ball_collision, if_neg hguard]
  split_ifs with hA hB
  · rw [hsep]
    linarith
  · have hspun : ball_distance (spun1 b1 b2) (spun2 b1 b2) =
        ball_distance (separated1 b1 b2) (separated2 b1 b2) := rfl
    rw [hspun, hsep]
    linarith
  · have himp : ball_distance (impulsed1 b1 b2) (impulsed2 b1 b2) =
        ball_distance (separated1 b1 b2) (separated2 b1 b2) := rfl
    rw [himp, hsep]
    linarith

/-- Witness for C4 at a concrete input: two balls 20 apart (overlapping)
end up at least `2 * BALL_RADIUS` apart. -/
theorem C4_posteriori_separation_witness :
    BALL_RADIUS * 2 - 0 ≤
      ball_distance (resolve_ball_collision (mkBall 0 0 0 0 0) (mkBall 20 0 0 0 0)).1
        (resolve_ball_collision (mkBall 0 0 0 0 0) (mkBall 20 0 0 0 0)).2 := by
  have hd : ball_distance (mkBall 0 0 0 0 0) (mkBall 20 0 0 0 0) = 20 := by
    unfold ball_distance mkBall
    norm_num
    rw [show (400 : ℝ) = 20 ^ 2 by norm_num, Real.sqrt_sq (by norm_num)]
  exact C4_posteriori_separation (mkBall 0 0 0 0 0) (mkBall 20 0 0 0 0) 0 le_rfl
    (by rw [hd]; norm_num) (by rw [hd, BALL_RADIUS]; norm_num)

/-! ## C1 : the normal impulse with restitution 0.9 never adds energy -/

/-- The collision normal is a unit vector whenever the distance is
nonzero. -/
lemma normal_unit (b1 b2 : Ball) (h0 : ball_distance b1 b2 ≠ 0) :
    coll_nx b1 b2 ^ 2 + coll_ny b1 b2 ^ 2 = 1 := by
  have hsq : (b2.center_x - b1.center_x) * (b2.center_x - b1.center_x) +
      (b2.center_y - b1.center_y) * (b2.center_y - b1.center_y) =
      ball_distance b1 b2 * ball_distance b1 b2 :=
    (Real.mul_self_sqrt (add_nonneg (mul_self_nonneg _) (mul_self_nonneg _))).symm
  unfold coll_nx coll_ny
  field_simp
  linear_combination hsq

/-- Pure algebra of the two-body normal impulse: along a unit normal,
with an impulse scalar `j` satisfying `j * (m1 + m2) = 2 * s * 0.9`, the
weighted sum of squared speeds does not increase (the dissipated energy
is proportional to `s ^ 2`, so the sign of `s` is irrelevant). -/
lemma impulse_ke_le (m1 m2 n1 n2 v1x v1y v2x v2y s j : ℝ)
    (hm1 : 0 < m1) (hm2 : 0 < m2) (hn : n1 ^ 2 + n2 ^ 2 = 1)
    (hs : s = (v2x - v1x) * n1 + (v2y - v1y) * n2)
    (hj : j * (m1 + m2) = 2 * s * 0.9) :
    0.5 * m1 * ((v1x + j * m2 * n1) ^ 2 + (v1y + j * m2 * n2) ^ 2) +
      0.5 * m2 * ((v2x - j * m1 * n1) ^ 2 + (v2y - j * m1 * n2) ^ 2) ≤
      0.5 * m1 * (v1x ^ 2 + v1y ^ 2) + 0.5 * m2 * (v2x ^ 2 + v2y ^ 2) := by
  have hM : 0 < m1 + m2 := by linarith
  have hD : 0.5 * m1 * ((v1x + j * m2 * n1) ^ 2 + (v1y + j * m2 * n2) ^ 2) +
      0.5 * m2 * ((v2x - j * m1 * n1) ^ 2 + (v2y - j * m1 * n2) ^ 2) -
      (0.5 * m1 * (v1x ^ 2 + v1y ^ 2) + 0.5 * m2 * (v2x ^ 2 + v2y ^ 2)) =
      -(m1 * m2) * (j * s) + 0.5 * j ^ 2 * (m1 * m2) * (m1 + m2) := by
    linear_combination (m1 * m2 * j) * hs +
      (0.5 * j ^ 2 * m1 * m2 * (m1 + m2)) * hn
  have h2 : (-(m1 * m2) * (j * s) + 0.5 * j ^ 2 * (m1 * m2) * (m1 + m2)) *
      (m1 + m2) = -(0.18) * s ^ 2 * (m1 * m2) := by
    linear_combination
      (-(m1 * m2) * s + 0.5 * (m1 * m2) * (j * (m1 + m2) + 2 * s * 0.9)) * hj
  have hle : -(0.18) * s ^ 2 * (m1 * m2) ≤ 0 := by
    nlinarith [sq_nonneg s, mul_pos hm1 hm2]
  have h3 : -(m1 * m2) * (j * s) + 0.5 * j ^ 2 * (m1 * m2) * (m1 + m2) ≤ 0 := by
    nlinarith [h2, hM, hle]
  linarith [hD, h3]

/-- C1: a call to `resolve_ball_collision` never increases the total
kinetic energy `0.5*m1*|v1|^2 + 0.5*m2*|v2|^2` of the pair, for any two
balls of positive mass with arbitrary positions and velocities (in
particular for any overlapping pair): the early-return and
separating-pair branches keep the velocities, and the restitution-0.9
impulse strictly dissipates along the unit normal. -/
theorem C1_no_energy_gain (b1 b2 : Ball)
    (hm1 : 0 < b1.mass) (hm2 : 0 < b2.mass) :
    kinetic_energy (resolve_ball_collision b1 b2).1 +
      kinetic_energy (resolve_ball_collision b1 b2).2 ≤
      kinetic_energy b1 + kinetic_energy b2 := by
  rw [resolve_ball_collision]
  split_ifs with hguard hA hB
  · exact le_rfl
  · exact le_rfl
  all_goals {
    have h0 : ball_distance b1 b2 ≠ 0 := fun h => hguard (Or.inl h)
    have hn := normal_unit b1 b2 h0
    have hj : coll_impulse b1 b2 * (b1.mass + b2.mass) =
        2 * coll_normal_speed b1 b2 * 0.9 := by
      unfold coll_impulse
      field_simp
    have key := impulse_ke_le b1.mass b2.mass (coll_nx b1 b2) (coll_ny b1 b2)
      b1.change_x b1.change_y b2.change_x b2.change_y
      (coll_normal_speed b1 b2) (coll_impulse b1 b2)
      hm1 hm2 hn rfl hj
    simpa [kinetic_energy, spun1, spun2, impulsed1, impulsed2,
      separated1, separated2] using key
  }

/-- Witness for C1 at a concrete input: a head-on hit between two unit
mass balls 20 apart does not create kinetic energy. -/
theorem C1_no_energy_gain_witness :
    kinetic_energy (resolve_ball_collision (mkBall 0 0 5 0 0) (mkBall 20 0 0 0 0)).1 +
      kinetic_energy (resolve_ball_collision (mkBall 0 0 5 0 0) (mkBall 20 0 0 0 0)).2 ≤
      kinetic_energy (mkBall 0 0 5 0 0) + kinetic_energy (mkBall 20 0 0 0 0) :=
  C1_no_energy_gain (mkBall 0 0 5 0 0) (mkBall 20 0 0 0 0)
    (by norm_num [mkBall]) (by norm_num [mkBall])

/-! ## C2 : integration with `delta_time = 0` -/

/-- C2 counterexample: `Ball.update` with `delta_time = 0` is not a
no-op.  A ball moving with velocity `(1, 0)` still advances its
position by one tick of velocity and still has friction applied,
because the integration is per tick and only the rotation and
spin-drift terms are scaled by `delta_time`. -/
theorem C2_zero_dt_counterexample :
    Ball.update (mkBall 0 0 1 0 0) 0 ≠ mkBall 0 0 1 0 0 := by
  intro h
  have hc := congrArg Ball.center_x h
  have hs : Real.sqrt ((1 : ℝ) ^ 2 + 0 ^ 2) = 1 := by
    rw [show ((1 : ℝ) ^ 2 + 0 ^ 2) = 1 ^ 2 by norm_num,
      Real.sqrt_sq (by norm_num)]
  rw [Ball.update] at hc
  simp only [mkBall] at hc
  rw [hs] at hc
  rw [if_pos (by norm_num)] at hc
  rw [if_neg (by rw [ROTATIONAL_FRICTION]; norm_num)] at hc
  norm_num at hc

/-- C2 amended: `Ball.update` is a no-op exactly on resting balls: if
both velocity components are zero then every field of the ball is
unchanged, for every `delta_time` (in particular `delta_time = 0`).
For a moving ball even `delta_time = 0` advances the position and
applies friction, since the integration is per tick. -/
theorem C2_update_noop_at_rest (b : Ball) (dt : ℝ)
    (hx : b.change_x = 0) (hy : b.change_y = 0) :
    b.update dt = b := by
  rcases b with ⟨cx, cy, vx, vy, av, rot, m, ip⟩
  simp only at hx hy
  subst hx
  subst hy
  rw [Ball.update]
  norm_num [snap]

/-- Witness for C2 at a concrete input: a resting ball with spin is left
unchanged by an update with `delta_time = 0`. -/
theorem C2_update_noop_at_rest_witness :
    Ball.update (mkBall 5 7 0 0 2) 0 = mkBall 5 7 0 0 2 :=
  C2_update_noop_at_rest (mkBall 5 7 0 0 2) 0 rfl rfl

/-! ## C3 : speed-dependent friction and direction of motion -/

/-- C3 counterexample: the friction factor is not clamped.  At pre-step
speed 2000 the factor `FRICTION - speed * 0.0005 = -0.015` is negative,
so `Ball.update` reverses the sign of the velocity: a ball moving with
velocity `(2000, 0)` leaves the step with a negative x-velocity. -/
theorem C3_friction_reversal_counterexample :
    0 < (mkBall 0 0 2000 0 0).change_x ∧
      (Ball.update (mkBall 0 0 2000 0 0) (1 / 60)).change_x < 0 := by
  constructor
  · norm_num [mkBall]
  · have hs : Real.sqrt ((2000 : ℝ) ^ 2 + 0 ^ 2) = 2000 := by
      rw [show ((2000 : ℝ) ^ 2 + 0 ^ 2) = 2000 ^ 2 by norm_num,
        Real.sqrt_sq (by norm_num)]
    rw [Ball.update]
    simp only [mkBall]
    rw [hs]
    rw [if_pos (by norm_num)]
    rw [if_neg (by rw [ROTATIONAL_FRICTION]; norm_num)]
    simp only [apply_friction]
    rw [hs]
    norm_num [snap, FRICTION]

/-- C3 amended: the friction stage of `Ball.update` scales the velocity
by the factor `FRICTION - speed * 0.0005`, which keeps the direction of
motion (the post-friction velocity is a nonnegative scalar multiple of
the pre-friction velocity) whenever the pre-step speed is at most
`FRICTION / 0.0005 = 1970`; the source contains no clamp, so beyond
that speed the factor goes negative. -/
theorem C3_friction_keeps_direction (vx vy : ℝ)
    (h : Real.sqrt (vx ^ 2 + vy ^ 2) ≤ 1970) :
    ∃ c : ℝ, 0 ≤ c ∧ apply_friction vx vy = (c * vx, c * vy) := by
  refine ⟨FRICTION - Real.sqrt (vx ^ 2 + vy ^ 2) * 0.0005, ?_, ?_⟩
  · rw [FRICTION]
    nlinarith [h]
  · simp only [apply_friction]
    rw [Prod.mk.injEq]
    constructor <;> ring

/-- Witness for C3 at a concrete input: a velocity of norm 5 is scaled
by a nonnegative factor. -/
theorem C3_friction_keeps_direction_witness :
    ∃ c : ℝ, 0 ≤ c ∧ apply_friction 3 4 = (c * 3, c * 4) := by
  apply C3_friction_keeps_direction
  rw [show ((3 : ℝ) ^ 2 + 4 ^ 2) = 5 ^ 2 by norm_num,
    Real.sqrt_sq (by norm_num)]
  norm_num

/-! ## C7 and C10 : the zero-velocity snap -/

/-- The magnitude of one component is bounded by the Euclidean norm. -/
lemma abs_le_norm (vx vy : ℝ) : |vx| ≤ Real.sqrt (vx ^ 2 + vy ^ 2) := by
  rw [show |vx| = Real.sqrt (vx ^ 2) by rw [Real.sqrt_sq_eq_abs]]
  exact Real.sqrt_le_sqrt (by nlinarith [sq_nonneg vy])

/-- Core stopping lemma: if both velocity components are below the snap
threshold and the damped angular velocity does not trigger the spin
drift, one `Ball.update` zeroes the velocity completely. -/
lemma update_stops (b : Ball) (dt : ℝ)
    (hxlt : |b.change_x| < 0.08) (hylt : |b.change_y| < 0.08)
    (hav : |b.angular_velocity * ROTATIONAL_FRICTION| ≤ 0.1) :
    (b.update dt).change_x = 0 ∧ (b.update dt).change_y = 0 := by
  have hsnn : 0 ≤ Real.sqrt (b.change_x ^ 2 + b.change_y ^ 2) :=
    Real.sqrt_nonneg _
  have hsle : Real.sqrt (b.change_x ^ 2 + b.change_y ^ 2) ≤ 0.12 := by
    have harg : b.change_x ^ 2 + b.change_y ^ 2 ≤ 0.12 ^ 2 := by
      nlinarith [sq_abs b.change_x, sq_abs b.change_y,
        abs_nonneg b.change_x, abs_nonneg b.change_y]
    calc Real.sqrt (b.change_x ^ 2 + b.change_y ^ 2) ≤
        Real.sqrt (0.12 ^ 2) := Real.sqrt_le_sqrt harg
      _ = 0.12 := Real.sqrt_sq (by norm_num)
  have hf0 : 0 ≤ FRICTION - Real.sqrt (b.change_x ^ 2 + b.change_y ^ 2) * 0.0005 := by
    rw [FRICTION]
    nlinarith
  have hf1 : FRICTION - Real.sqrt (b.change_x ^ 2 + b.change_y ^ 2) * 0.0005 ≤ 1 := by
    rw [FRICTION]
    nlinarith
  have hxf : |(apply_friction b.change_x b.change_y).1| < 0.08 := by
    simp only [apply_friction]
    rw [abs_mul, abs_of_nonneg hf0]
    nlinarith [abs_nonneg b.change_x]
  have hyf : |(apply_friction b.change_x b.change_y).2| < 0.08 := by
    simp only [apply_friction]
    rw [abs_mul, abs_of_nonneg hf0]
    nlinarith [abs_nonneg b.change_y]
  rw [Ball.update]
  split_ifs with hsp hdrift
  · exact absurd hdrift (not_lt.mpr hav)
  · constructor
    · show snap (apply_friction b.change_x b.change_y).1 = 0
      rw [snap, if_pos hxf]
    · show snap (apply_friction b.change_x b.change_y).2 = 0
      rw [snap, if_pos hyf]
  · constructor
    · show snap b.change_x = 0
      rw [snap, if_pos hxlt]
    · show snap b.change_y = 0
      rw [snap, if_pos hylt]

/-- C7 counterexample: a ball with pre-step speed `0.05 < 0.08` but
angular velocity 100 is not stopped by the step, because the spin-drift
term pushes the x-velocity above the snap threshold before the snap is
applied. -/
theorem C7_subthreshold_counterexample :
    Real.sqrt ((mkBall 0 0 0.05 0 100).change_x ^ 2 +
        (mkBall 0 0 0.05 0 100).change_y ^ 2) < 0.08 ∧
      (Ball.update (mkBall 0 0 0.05 0 100) (1 / 60)).change_x ≠ 0 := by
  have hs : Real.sqrt ((0.05 : ℝ) ^ 2 + 0 ^ 2) = 0.05 := by
    rw [show ((0.05 : ℝ) ^ 2 + 0 ^ 2) = 0.05 ^ 2 by norm_num,
      Real.sqrt_sq (by norm_num)]
  constructor
  · simp only [mkBall]
    rw [hs]
    norm_num
  · rw [Ball.update]
    simp only [mkBall]
    rw [hs]
    rw [if_pos (by norm_num)]
    rw [if_pos (by rw [ROTATIONAL_FRICTION]; norm_num)]
    simp only [apply_friction]
    rw [hs]
    norm_num [snap, FRICTION, ROTATIONAL_FRICTION, SPIN_EFFECT]
    rw [abs_of_pos (show (0 : ℝ) < 231399 / 800000 by norm_num)]
    norm_num

/-- C7 amended: if the pre-step speed is below the zero-snap threshold
`0.08` and the damped angular velocity does not trigger the spin drift
(`|angular_velocity * ROTATIONAL_FRICTION|` at most `0.1`), the
post-step velocity of `Ball.update` is exactly zero in both components;
without the spin condition the drift term can push a sub-threshold
velocity past the snap threshold. -/
theorem C7_subthreshold_stops (b : Ball) (dt : ℝ)
    (hs : Real.sqrt (b.change_x ^ 2 + b.change_y ^ 2) < 0.08)
    (hav : |b.angular_velocity * ROTATIONAL_FRICTION| ≤ 0.1) :
    (b.update dt).change_x = 0 ∧ (b.update dt).change_y = 0 := by
  have hx : |b.change_x| < 0.08 := lt_of_le_of_lt (abs_le_norm _ _) hs
  have hy : |b.change_y| < 0.08 := by
    have := abs_le_norm b.change_y b.change_x
    rw [add_comm] at this
    exact lt_of_le_of_lt this hs
  exact update_stops b dt hx hy hav

/-- Witness for C7 at a concrete input: a slow spinless ball stops in
one step. -/
theorem C7_subthreshold_stops_witness :
    (Ball.update (mkBall 0 0 0.05 0.02 0) 1).change_x = 0 ∧
      (Ball.update (mkBall 0 0 0.05 0.02 0) 1).change_y = 0 := by
  apply C7_subthreshold_stops
  · simp only [mkBall]
    have h1 : ((0.05 : ℝ) ^ 2 + 0.02 ^ 2) ≤ 0.06 ^ 2 := by norm_num
    calc Real.sqrt ((0.05 : ℝ) ^ 2 + 0.02 ^ 2) ≤ Real.sqrt (0.06 ^ 2) :=
        Real.sqrt_le_sqrt h1
      _ = 0.06 := Real.sqrt_sq (by norm_num)
      _ < 0.08 := by norm_num
  · simp only [mkBall]
    rw [ROTATIONAL_FRICTION]
    norm_num

/-- The snap stage leaves each component either exactly zero or of
magnitude at least the threshold. -/
lemma snap_cases (v : ℝ) : snap v = 0 ∨ 0.08 ≤ |snap v| := by
  rw [snap]
  split_ifs with h
  · exact Or.inl rfl
  · exact Or.inr (not_lt.mp h)

/-- A value at or above the threshold survives the snap and stays
nonzero. -/
lemma snap_pos_ne (v : ℝ) (h8 : 0.08 ≤ v) : snap v ≠ 0 := by
  rw [snap, if_neg (not_lt.mpr (le_trans h8 (le_abs_self v)))]
  exact ne_of_gt (by linarith)

/-- C10 counterexample: the "consequently" part of the claim fails for
a spinning ball.  With components `(0.07, 0)` (each below `0.08`) and
angular velocity 100, the spin drift raises the x-velocity above the
snap threshold, so the ball is not stopped in one step. -/
theorem C10_componentwise_counterexample :
    |(mkBall 0 0 0.07 0 100).change_x| < 0.08 ∧
      |(mkBall 0 0 0.07 0 100).change_y| < 0.08 ∧
      (Ball.update (mkBall 0 0 0.07 0 100) (1 / 60)).change_x ≠ 0 := by
  have hs : Real.sqrt ((0.07 : ℝ) ^ 2 + 0 ^ 2) = 0.07 := by
    rw [show ((0.07 : ℝ) ^ 2 + 0 ^ 2) = 0.07 ^ 2 by norm_num,
      Real.sqrt_sq (by norm_num)]
  refine ⟨by norm_num [mkBall, abs_lt], by norm_num [mkBall, abs_lt], ?_⟩
  rw [Ball.update]
  simp only [mkBall]
  rw [hs]
  rw [if_pos (by norm_num)]
  rw [if_pos (by rw [ROTATIONAL_FRICTION]; norm_num)]
  simp only [apply_friction]
  rw [hs]
  show snap _ ≠ 0
  apply snap_pos_ne
  rw [FRICTION, ROTATIONAL_FRICTION, SPIN_EFFECT]
  norm_num

/-- C10 amended: the zero-velocity snap of `Ball.update` acts on each
velocity component independently, so after every call each component is
either exactly 0 or of magnitude at least 0.08; and a ball whose
components are each below 0.08 in magnitude is stopped completely in
one step provided the damped angular velocity does not trigger the spin
drift (`|angular_velocity * ROTATIONAL_FRICTION|` at most `0.1`). -/
theorem C10_componentwise_snap (b : Ball) (dt : ℝ) :
    ((b.update dt).change_x = 0 ∨ 0.08 ≤ |(b.update dt).change_x|) ∧
      ((b.update dt).change_y = 0 ∨ 0.08 ≤ |(b.update dt).change_y|) ∧
      (|b.change_x| < 0.08 → |b.change_y| < 0.08 →
        |b.angular_velocity * ROTATIONAL_FRICTION| ≤ 0.1 →
        (b.update dt).change_x = 0 ∧ (b.update dt).change_y = 0) := by
  refine ⟨?_, ?_, fun hx hy hav => update_stops b dt hx hy hav⟩
  · rw [Ball.update]
    split_ifs <;> exact snap_cases _
  · rw [Ball.update]
    split_ifs <;> exact snap_cases _

/-- Witness for C10 at a concrete input: a spinless ball with both
components below the threshold is stopped in one step. -/
theorem C10_componentwise_snap_witness :
    (Ball.update (mkBall 0 0 0.07 0.01 0) 1).change_x = 0 ∧
      (Ball.update (mkBall 0 0 0.07 0.01 0) 1).change_y = 0 :=
  (C10_componentwise_snap (mkBall 0 0 0.07 0.01 0) 1).2.2
    (by norm_num [mkBall, abs_lt]) (by norm_num [mkBall, abs_lt])
    (by rw [mkBall, ROTATIONAL_FRICTION]; norm_num)

/-! ## C6 : wall collision -/

/-- The ball extent lies fully inside the playable rectangle
`[65, SCREEN_WIDTH - 65] x [65, SCREEN_HEIGHT - 65]`. -/
def inside_bounds (b : Ball) : Prop :=
  65 ≤ b.center_x - BALL_RADIUS ∧ b.center_x + BALL_RADIUS ≤ SCREEN_WIDTH - 65 ∧
    65 ≤ b.center_y - BALL_RADIUS ∧ b.center_y + BALL_RADIUS ≤ SCREEN_HEIGHT - 65

/-- C6 counterexample: a ball at `(70, 70)` with velocity `(5, -5)`
crosses both the left and the bottom boundary.  The call corrects only
the x-axis and returns `true`, leaving the ball still sticking out of
the bottom boundary (not clamped fully inside), and the x-velocity,
already pointing away from the left wall, keeps its sign instead of
being reversed. -/
theorem C6_wall_counterexample :
    (check_wall_collision (mkBall 70 70 5 (-5) 0)).2 = true ∧
      (check_wall_collision (mkBall 70 70 5 (-5) 0)).1.center_y - BALL_RADIUS < 65 ∧
      0 < (mkBall 70 70 5 (-5) 0).change_x ∧
      0 < (check_wall_collision (mkBall 70 70 5 (-5) 0)).1.change_x := by
  rw [check_wall_collision]
  rw [if_pos (by norm_num [mkBall, BALL_RADIUS])]
  refine ⟨rfl, ?_, by norm_num [mkBall], ?_⟩
  · norm_num [mkBall, BALL_RADIUS]
  · show 0 < |(mkBall 70 70 5 (-5) 0).change_x| * WALL_BOUNCE
    rw [WALL_BOUNCE]
    norm_num [mkBall]

/-- C6 amended: `check_wall_collision` corrects at most one axis per
call, testing left, right, bottom, top in that order; on a hit it
clamps the hit coordinate, sets the normal velocity component to point
away from the wall with magnitude scaled by `WALL_BOUNCE`, and returns
`true`; with no wall crossed it returns `false` and leaves the ball
unchanged.  Consequently the claimed behaviour (ball fully clamped
inside and normal velocity sign-reversed with factor `WALL_BOUNCE`)
holds whenever exactly one wall is crossed and the ball is moving
toward it, which this theorem states wall by wall. -/
theorem C6_wall_single_hit (b : Ball) :
    (inside_bounds b → check_wall_collision b = (b, false)) ∧
      (b.center_x - BALL_RADIUS < 65 → 65 ≤ b.center_y - BALL_RADIUS →
        b.center_y + BALL_RADIUS ≤ SCREEN_HEIGHT - 65 → b.change_x ≤ 0 →
        inside_bounds (check_wall_collision b).1 ∧
          (check_wall_collision b).1.change_x = -b.change_x * WALL_BOUNCE ∧
          (check_wall_collision b).2 = true) ∧
      (SCREEN_WIDTH - 65 < b.center_x + BALL_RADIUS → 65 ≤ b.center_y - BALL_RADIUS →
        b.center_y + BALL_RADIUS ≤ SCREEN_HEIGHT - 65 → 0 ≤ b.change_x →
        inside_bounds (check_wall_collision b).1 ∧
          (check_wall_collision b).1.change_x = -b.change_x * WALL_BOUNCE ∧
          (check_wall_collision b).2 = true) ∧
      (b.center_y - BALL_RADIUS < 65 → 65 ≤ b.center_x - BALL_RADIUS →
        b.center_x + BALL_RADIUS ≤ SCREEN_WIDTH - 65 → b.change_y ≤ 0 →
        inside_bounds (check_wall_collision b).1 ∧
          (check_wall_collision b).1.change_y = -b.change_y * WALL_BOUNCE ∧
          (check_wall_collision b).2 = true) ∧
      (SCREEN_HEIGHT - 65 < b.center_y + BALL_RADIUS → 65 ≤ b.center_x - BALL_RADIUS →
        b.center_x + BALL_RADIUS ≤ SCREEN_WIDTH - 65 → 0 ≤ b.change_y →
        inside_bounds (check_wall_collision b).1 ∧
          (check_wall_collision b).1.change_y = -b.change_y * WALL_BOUNCE ∧
          (check_wall_collision b).2 = true) := by
  refine ⟨?_, ?_, ?_, ?_, ?_⟩
  · rintro ⟨h1, h2, h3, h4⟩
    rw [check_wall_collision, if_neg (not_lt.mpr h1), if_neg (not_lt.mpr h2),
      if_neg (not_lt.mpr h3), if_neg (not_lt.mpr h4)]
  · intro h1 h2 h3 h4
    rw [check_wall_collision, if_pos h1]
    refine ⟨⟨?_, ?_, ?_, ?_⟩, ?_, rfl⟩
    · norm_num [BALL_RADIUS]
    · norm_num [BALL_RADIUS, SCREEN_WIDTH]
    · exact h2
    · exact h3
    · show |b.change_x| * WALL_BOUNCE = -b.change_x * WALL_BOUNCE
      rw [abs_of_nonpos h4]
  · intro h1 h2 h3 h4
    have hnl : ¬ b.center_x - BALL_RADIUS < 65 := by
      rw [BALL_RADIUS] at h1 ⊢
      rw [SCREEN_WIDTH] at h1
      push_neg
      linarith
    rw [check_wall_collision, if_neg hnl, if_pos h1]
    refine ⟨⟨?_, ?_, ?_, ?_⟩, ?_, rfl⟩
    · norm_num [BALL_RADIUS, SCREEN_WIDTH]
    · norm_num [BALL_RADIUS, SCREEN_WIDTH]
    · exact h2
    · exact h3
    · show -|b.change_x| * WALL_BOUNCE = -b.change_x * WALL_BOUNCE
      rw [abs_of_nonneg h4]
  · intro h1 h2 h3 h4
    rw [check_wall_collision, if_neg (not_lt.mpr h2), if_neg (not_lt.mpr h3),
      if_pos h1]
    refine ⟨⟨?_, ?_, ?_, ?_⟩, ?_, rfl⟩
    · exact h2
    · exact h3
    · norm_num [BALL_RADIUS]
    · norm_num [BALL_RADIUS, SCREEN_HEIGHT]
    · show |b.change_y| * WALL_BOUNCE = -b.change_y * WALL_BOUNCE
      rw [abs_of_nonpos h4]
  · intro h1 h2 h3 h4
    have hnb : ¬ b.center_y - BALL_RADIUS < 65 := by
      rw [BALL_RADIUS] at h1 ⊢
      rw [SCREEN_HEIGHT] at h1
      push_neg
      linarith
    rw [check_wall_collision, if_neg (not_lt.mpr h2), if_neg (not_lt.mpr h3),
      if_neg hnb, if_pos h1]
    refine ⟨⟨?_, ?_, ?_, ?_⟩, ?_, rfl⟩
    · exact h2
    · exact h3
    · norm_num [BALL_RADIUS, SCREEN_HEIGHT]
    · norm_num [BALL_RADIUS, SCREEN_HEIGHT]
    · show -|b.change_y| * WALL_BOUNCE = -b.change_y * WALL_BOUNCE
      rw [abs_of_nonneg h4]

/-- Witness for C6 at concrete inputs: a ball crossing only the left
wall while moving left is clamped inside with its x-velocity reversed
and scaled, and a ball fully inside is reported unchanged. -/
theorem C6_wall_single_hit_witness :
    (inside_bounds (check_wall_collision (mkBall 70 300 (-5) 0 1)).1 ∧
        (check_wall_collision (mkBall 70 300 (-5) 0 1)).1.change_x =
          -(mkBall 70 300 (-5) 0 1).change_x * WALL_BOUNCE ∧
        (check_wall_collision (mkBall 70 300 (-5) 0 1)).2 = true) ∧
      check_wall_collision (mkBall 600 350 3 4 5) = (mkBall 600 350 3 4 5, false) := by
  constructor
  · exact (C6_wall_single_hit (mkBall 70 300 (-5) 0 1)).2.1
      (by norm_num [mkBall, BALL_RADIUS])
      (by norm_num [mkBall, BALL_RADIUS])
      (by norm_num [mkBall, BALL_RADIUS, SCREEN_HEIGHT])
      (by norm_num [mkBall])
  · exact (C6_wall_single_hit (mkBall 600 350 3 4 5)).1
      (by norm_num [inside_bounds, mkBall, BALL_RADIUS, SCREEN_WIDTH, SCREEN_HEIGHT])

/-! ## C8 : pocket capture -/

/-- If some member of the pocket list is within capture range, the scan
finds a pocket. -/
lemma find_pocket_isSome (x y : ℝ) (p : ℝ × ℝ)
    (h : Real.sqrt ((x - p.1) ^ 2 + (y - p.2) ^ 2) < POCKET_RADIUS) :
    ∀ L : List (ℝ × ℝ), p ∈ L → (find_pocket x y L).isSome = true := by
  intro L
  induction L with
  | nil => intro hp; exact absurd hp (List.not_mem_nil p)
  | cons q qs ih =>
    intro hp
    rw [find_pocket]
    split_ifs with hq
    · rfl
    · rcases List.mem_cons.mp hp with rfl | hmem
      · exact absurd h hq
      · exact ih hmem

/-- If no member of the pocket list is within capture range, the scan
returns nothing. -/
lemma find_pocket_none (x y : ℝ) :
    ∀ L : List (ℝ × ℝ),
      (∀ p ∈ L, ¬ Real.sqrt ((x - p.1) ^ 2 + (y - p.2) ^ 2) < POCKET_RADIUS) →
      find_pocket x y L = none := by
  intro L
  induction L with
  | nil => intro _; rfl
  | cons q qs ih =>
    intro h
    rw [find_pocket, if_neg (h q (List.mem_cons_self q qs))]
    exact ih fun p hp => h p (List.mem_cons_of_mem q hp)

/-- The scan returns the first pocket in iteration order that is within
capture range. -/
lemma find_pocket_first (x y : ℝ) (p : ℝ × ℝ)
    (hp : Real.sqrt ((x - p.1) ^ 2 + (y - p.2) ^ 2) < POCKET_RADIUS) :
    ∀ l1 l2 : List (ℝ × ℝ),
      (∀ q ∈ l1, ¬ Real.sqrt ((x - q.1) ^ 2 + (y - q.2) ^ 2) < POCKET_RADIUS) →
      find_pocket x y (l1 ++ p :: l2) = some p := by
  intro l1
  induction l1 with
  | nil => intro l2 _; rw [List.nil_append, find_pocket, if_pos hp]
  | cons q qs ih =>
    intro l2 h
    rw [List.cons_append, find_pocket, if_neg (h q (List.mem_cons_self q qs))]
    exact ih l2 fun r hr => h r (List.mem_cons_of_mem q hr)

/-- Lower-bound a square root from a bound on the square. -/
lemma le_sqrt_of_sq_le (c z : ℝ) (hc : 0 ≤ c) (h : c ^ 2 ≤ z) :
    c ≤ Real.sqrt z := by
  calc c = Real.sqrt (c ^ 2) := (Real.sqrt_sq hc).symm
    _ ≤ Real.sqrt z := Real.sqrt_le_sqrt h

/-- C8: pocket capture boundary behaviour for an active ball: a ball at
distance exactly 0 from some pocket center is captured; a ball at
distance at least `POCKET_RADIUS + 1` from every pocket center (in
particular at distance exactly `POCKET_RADIUS + 1` from each) is not
captured; and capture goes to the first pocket in iteration order whose
center is within `POCKET_RADIUS` of the ball center. -/
theorem C8_pocket_boundary (b : Ball) (hip : b.in_pocket = false) :
    ((∃ p ∈ pocket_locations,
        Real.sqrt ((b.center_x - p.1) ^ 2 + (b.center_y - p.2) ^ 2) = 0) →
      (check_pocket b).isSome = true) ∧
      ((∀ p ∈ pocket_locations,
          POCKET_RADIUS + 1 ≤
            Real.sqrt ((b.center_x - p.1) ^ 2 + (b.center_y - p.2) ^ 2)) →
        check_pocket b = none) ∧
      (∀ l1 p l2, pocket_locations = l1 ++ p :: l2 →
        (∀ q ∈ l1,
          ¬ Real.sqrt ((b.center_x - q.1) ^ 2 + (b.center_y - q.2) ^ 2) <
            POCKET_RADIUS) →
        Real.sqrt ((b.center_x - p.1) ^ 2 + (b.center_y - p.2) ^ 2) <
          POCKET_RADIUS →
        check_pocket b = some p) := by
  have hcp : check_pocket b = find_pocket b.center_x b.center_y pocket_locations := by
    rw [check_pocket, hip]
    simp
  refine ⟨?_, ?_, ?_⟩
  · rintro ⟨p, hpmem, hdist⟩
    rw [hcp]
    refine find_pocket_isSome b.center_x b.center_y p ?_ pocket_locations hpmem
    rw [hdist, POCKET_RADIUS]
    norm_num
  · intro h
    rw [hcp]
    apply find_pocket_none
    intro p hp hlt
    linarith [h p hp]
  · intro l1 p l2 heq h1 hp
    rw [hcp, heq]
    exact find_pocket_first b.center_x b.center_y p hp l1 l2 h1

/-- Witness for C8 at concrete inputs: a ball exactly on the first
pocket center is captured; a ball at the table center, at distance at
least 33 from every pocket, is not. -/
theorem C8_pocket_boundary_witness :
    (check_pocket (mkBall 60 60 0 0 0)).isSome = true ∧
      check_pocket (mkBall 600 350 0 0 0) = none := by
  constructor
  · apply (C8_pocket_boundary (mkBall 60 60 0 0 0) rfl).1
    refine ⟨(60, 60), by simp [pocket_locations], ?_⟩
    simp only [mkBall]
    norm_num
  · apply (C8_pocket_boundary (mkBall 600 350 0 0 0) rfl).2.1
    intro p hp
    fin_cases hp <;>
      · simp only [mkBall, POCKET_RADIUS]
        norm_num
        exact le_sqrt_of_sq_le _ _ (by norm_num) (by norm_num)

end Billiard
